import Mathlib

/-!
Verification of the exitmap orchestrator (`src/exitmap.py`).

We shallowly embed the scanner's core: exit-relay selection
(`select_exits`), the circuit build loop and per-module driver
(`run_module`), and the top-level module loop of `main`.  External
collaborators (the stem controller, DNS resolution, the filesystem check
for the consensus, Python's `random.shuffle`, module import) are modelled
as explicit inputs in an `Env` record; the build loop's observable
actions are recorded as a trace of events.
-/

namespace Exitmap

/-- One exit-policy rule over an address range and a port range.
The catalog's policies are ordered lists of such accept/reject rules. -/
structure Rule where
  accept : Bool
  addrLo : Nat
  addrHi : Nat
  portLo : Nat
  portHi : Nat
deriving Repr, DecidableEq

/-- Whether a rule matches a concrete (address, port) destination. -/
def Rule.matchesDest (r : Rule) (addr port : Nat) : Bool :=
  decide (r.addrLo ≤ addr) && decide (addr ≤ r.addrHi) &&
  decide (r.portLo ≤ port) && decide (port ≤ r.portHi)

/-- First-match evaluation of an exit policy: the first rule matching the
destination decides; an unmatched destination defaults to reject. -/
def policyAccepts : List Rule → Nat → Nat → Bool
  | [], _, _ => false
  | r :: rs, addr, port =>
    if r.matchesDest addr port then r.accept else policyAccepts rs addr port

/-- A relay record from the consensus catalog: fingerprint, address,
declared exit policy, registered country code. -/
structure RelayRecord where
  fingerprint : String
  address : Nat
  policy : List Rule
  country : String
deriving Repr, DecidableEq

/-- Case-insensitive country-code comparison. -/
def countryOk (want : Option String) (have_ : String) : Bool :=
  match want with
  | none => true
  | some c => have_.toLower == c.toLower

/-- A relay qualifies for a host list and optional country filter when its
policy accepts every destination and its country matches the filter. -/
def qualifies (hosts : List (Nat × Nat)) (country : Option String)
    (r : RelayRecord) : Bool :=
  hosts.all (fun hp => policyAccepts r.policy hp.1 hp.2) &&
  countryOk country r.country

/-- Modelled from the spec: `exitselector.get_exits` (file
`exitselector.py` is not under `src/`).  Returns the total number of
catalog relays and the fingerprints of the relays whose exit policy
accepts every resolved destination, intersected with the optional
case-insensitive country filter; a module with no destinations matches
all relays. -/
def get_exits (catalog : List RelayRecord) (country_code : Option String)
    (hosts : List (Nat × Nat)) : Nat × List String :=
  (catalog.length,
   (catalog.filter (qualifies hosts country_code)).map (·.fingerprint))

/-- Swap the elements at indices `i` and `j` of a list, the primitive
step of the Fisher-Yates shuffle; out-of-range indices leave the list
unchanged. -/
def listSwap (l : List String) (i j : Nat) : List String :=
  match l[i]?, l[j]? with
  | some x, some y => (l.set i y).set j x
  | _, _ => l

/-- Fisher-Yates loop, descending from index `i`: swap position `i` with
a position drawn from `0..i` by the random stream `g`, then recurse. -/
def fisherYates (g : Nat → Nat) (l : List String) : Nat → List String
  | 0 => l
  | i + 1 => fisherYates g (listSwap l (i + 1) (g (i + 1) % (i + 2))) i

/-- Model of Python's `random.shuffle` (standard-library collaborator):
the Fisher-Yates shuffle driven by an explicit stream `g` of random
draws. -/
def shuffle (g : Nat → Nat) (l : List String) : List String :=
  fisherYates g l (l.length - 1)

/-- The process-wide counters of `stats.py` (not under `src/`; the spec
defines them as `{totalCircuits, failedCircuits, modulesRun}`). -/
structure Statistics where
  total_circuits : Nat
  failed_circuits : Nat
  modules_run : Nat
deriving Repr, DecidableEq

/-- The command-line arguments `select_exits` and `run_module` read:
the `-e` single-fingerprint override, the `-C` country filter, the
first-hop fingerprint and the build delay. -/
structure Args where
  exit : Option String
  country : Option String
  first_hop : String
  build_delay : Nat
deriving Repr, DecidableEq

/-- A probe module as the orchestrator sees it: its declared destination
list (`None` meaning any exit qualifies). -/
structure ProbeModule where
  destinations : Option (List (String × Nat))
deriving Repr, DecidableEq

/-- Errors that escape `select_exits`: process termination with status 1
when the consensus file is missing (`exit(1)`), and the resolver
exception raised by `socket.gethostbyname` for an unresolvable host. -/
inductive SelErr where
  | processExit (code : Nat)
  | resolveFailure (host : String)
deriving Repr, DecidableEq

/-- Exceptions propagating out of `run_module`: the
`error.ExitSelectionError` raised when selection yields fewer than one
exit (carrying the count), or an error from `select_exits`. -/
inductive RunError where
  | exitSelection (count : Nat)
  | selectErr (e : SelErr)
deriving Repr, DecidableEq

/-- How a call to `run_module` ends: a normal return, or an exception
propagating to the caller. -/
inductive Outcome where
  | ok
  | raised (e : RunError)
deriving Repr, DecidableEq

/-- Observable actions of the circuit build loop: a circuit-creation
request for an explicit path, and a sleep of the configured delay. -/
inductive Event where
  | newCircuit (path : List String)
  | sleep (delay : Nat)
deriving Repr, DecidableEq

/-- The external world `exitmap.py` interacts with: whether the consensus
file exists, the relay catalog behind `exitselector`, DNS resolution,
the random stream feeding `random.shuffle`, module import, and which
circuit-creation requests the controller rejects synchronously. -/
structure Env where
  consensusExists : Bool
  catalog : List RelayRecord
  resolve : String → Option Nat
  rand : Nat → Nat
  moduleImport : String → Option ProbeModule
  ctrlRejects : List String → Bool

/-- Resolve a destination list left to right; the first unresolvable
host raises, as `socket.gethostbyname` does inside the comprehension. -/
def resolveList (env : Env) : List (String × Nat) → Except SelErr (List (Nat × Nat))
  | [] => Except.ok []
  | hp :: rest =>
    match env.resolve hp.1 with
    | none => Except.error (SelErr.resolveFailure hp.1)
    | some a =>
      match resolveList env rest with
      | Except.error e => Except.error e
      | Except.ok t => Except.ok ((a, hp.2) :: t)

/-- The host-resolution comprehension of `select_exits` (line 196-198):
a module with `destinations = None` contributes no hosts; otherwise each
declared destination is resolved in order. -/
def resolveHosts (env : Env) (m : ProbeModule) :
    Except SelErr (List (Nat × Nat)) :=
  match m.destinations with
  | none => Except.ok []
  | some ds => resolveList env ds

/-- `select_exits` (exitmap.py lines 178-221): check the consensus file
exists (else `exit(1)`), resolve the module's destinations, then either
take the single `-e` fingerprint or query `get_exits`, and shuffle the
resulting list. -/
def select_exits (env : Env) (args : Args) (m : ProbeModule) :
    Except SelErr (List String) :=
  if !env.consensusExists then
    Except.error (SelErr.processExit 1)
  else
    match resolveHosts env m with
    | Except.error e => Except.error e
    | Except.ok hosts =>
      let exit_relays :=
        match args.exit with
        | some fp => [fp]
        | none => (get_exits env.catalog args.country hosts).2
      Except.ok (shuffle env.rand exit_relays)

/-- The circuit build loop of `run_module` (lines 259-267): for each exit
in order, request a 2-hop circuit `[first_hop, exit]`; a synchronous
controller rejection increments `failed_circuits`; then sleep for the
build delay and continue. -/
def buildCircuits (env : Env) (args : Args) :
    List String → Statistics → Statistics × List Event
  | [], stats => (stats, [])
  | e :: rest, stats =>
    let path := [args.first_hop, e]
    let stats1 :=
      if env.ctrlRejects path then
        { stats with failed_circuits := stats.failed_circuits + 1 }
      else stats
    let r := buildCircuits env args rest stats1
    (r.1, Event.newCircuit path :: Event.sleep args.build_delay :: r.2)

/-- The result of one `run_module` call: the statistics object after the
call, the build loop's trace, and whether the call returned or raised. -/
structure ModuleResult where
  stats : Statistics
  trace : List Event
  outcome : Outcome
deriving Repr, DecidableEq

/-- `run_module` (lines 224-272): import the module (an `ImportError` is
logged and the function returns); select exits (errors propagate); add
the selected count to `total_circuits` up front; raise
`ExitSelectionError` when the count is below one; run the build loop;
finally increment `modules_run`. -/
def run_module (env : Env) (args : Args) (module_name : String)
    (stats : Statistics) : ModuleResult :=
  match env.moduleImport module_name with
  | none => ⟨stats, [], Outcome.ok⟩
  | some m =>
    match select_exits env args m with
    | Except.error e => ⟨stats, [], Outcome.raised (RunError.selectErr e)⟩
    | Except.ok exit_relays =>
      let count := exit_relays.length
      let stats1 := { stats with total_circuits := stats.total_circuits + count }
      if count < 1 then
        ⟨stats1, [], Outcome.raised (RunError.exitSelection count)⟩
      else
        let r := buildCircuits env args exit_relays stats1
        (⟨{ r.1 with modules_run := r.1.modules_run + 1 }, r.2, Outcome.ok⟩)

/-- The result of the driver loop: final statistics, the per-module build
traces in execution order, and the final outcome. -/
structure DriverResult where
  stats : Statistics
  traces : List (String × List Event)
  outcome : Outcome
deriving Repr, DecidableEq

/-- The module loop of `main` (lines 172-173): run each requested module
in order.  There is no exception handler around `run_module`, so an
exception raised by one module propagates and the remaining modules are
not run. -/
def runModules (env : Env) (args : Args) :
    List String → Statistics → DriverResult
  | [], stats => ⟨stats, [], Outcome.ok⟩
  | mn :: rest, stats =>
    let r := run_module env args mn stats
    match r.outcome with
    | Outcome.ok =>
      let d := runModules env args rest r.stats
      ⟨d.stats, (mn, r.trace) :: d.traces, d.outcome⟩
    | Outcome.raised e => ⟨r.stats, [(mn, r.trace)], Outcome.raised e⟩

/-- Extract the path of a circuit-creation request from a trace event. -/
def reqPath : Event → Option (List String)
  | Event.newCircuit p => some p
  | _ => none

/-- Recognize a sleep event in a trace. -/
def isSleep : Event → Bool
  | Event.sleep _ => true
  | _ => false

/-! ### Permutation lemmas for the shuffle -/

theorem set_self_of_getElem (l : List String) (k : Nat) (x : String)
    (h : l[k]? = some x) : l.set k x = l := by
  induction l generalizing k with
  | nil => simp at h
  | cons a t ih =>
    cases k with
    | zero => simp_all
    | succ k => simp_all [List.set]

theorem cons_set_perm (l : List String) (k : Nat) (v s : String)
    (h : l[k]? = some s) : List.Perm (s :: l.set k v) (v :: l) := by
  induction l generalizing k with
  | nil => simp at h
  | cons a t ih =>
    cases k with
    | zero =>
      simp only [List.getElem?_cons_zero, Option.some_inj] at h
      cases h
      exact List.Perm.swap v s t
    | succ k =>
      simp only [List.getElem?_cons_succ] at h
      have ih2 := ih k h
      have step1 : List.Perm (s :: a :: t.set k v) (a :: s :: t.set k v) :=
        List.Perm.swap a s _
      have step2 : List.Perm (a :: s :: t.set k v) (a :: v :: t) :=
        List.Perm.cons a ih2
      have step3 : List.Perm (a :: v :: t) (v :: a :: t) := List.Perm.swap v a t
      exact (step1.trans step2).trans step3

theorem set_set_swap_perm (l : List String) (i j : Nat) (x y : String)
    (hi : l[i]? = some x) (hj : l[j]? = some y) :
    List.Perm ((l.set i y).set j x) l := by
  have hj' : (l.set i y)[j]? = some y := by
    by_cases hij : i = j
    · subst hij
      have : i < l.length := (List.getElem?_eq_some.mp hi).1
      simp [List.getElem?_set_self, this]
    · rw [List.getElem?_set_ne hij]
      exact hj
  have h1 := cons_set_perm (l.set i y) j x y hj'
  have h2 := cons_set_perm l i y x hi
  exact List.Perm.cons_inv (h1.trans h2)

theorem listSwap_perm (l : List String) (i j : Nat) :
    List.Perm (listSwap l i j) l := by
  unfold listSwap
  cases hi : l[i]? with
  | none => exact List.Perm.refl l
  | some x =>
    cases hj : l[j]? with
    | none => exact List.Perm.refl l
    | some y => exact set_set_swap_perm l i j x y hi hj

theorem fisherYates_perm (g : Nat → Nat) (n : Nat) (l : List String) :
    List.Perm (fisherYates g l n) l := by
  induction n generalizing l with
  | zero => exact List.Perm.refl l
  | succ n ih =>
    exact (ih _).trans (listSwap_perm l (n + 1) (g (n + 1) % (n + 2)))

theorem shuffle_perm (g : Nat → Nat) (l : List String) :
    List.Perm (shuffle g l) l :=
  fisherYates_perm g (l.length - 1) l

theorem shuffle_single (g : Nat → Nat) (x : String) :
    shuffle g [x] = [x] := rfl

/-! ### Build-loop helper lemmas -/

theorem buildCircuits_trace (env : Env) (args : Args) (exits : List String)
    (stats : Statistics) :
    (buildCircuits env args exits stats).2 =
      exits.flatMap (fun e =>
        [Event.newCircuit [args.first_hop, e], Event.sleep args.build_delay]) := by
  induction exits generalizing stats with
  | nil => rfl
  | cons e rest ih => simp [buildCircuits, ih]

theorem buildCircuits_requests (env : Env) (args : Args) (exits : List String)
    (stats : Statistics) :
    (buildCircuits env args exits stats).2.filterMap reqPath =
      exits.map (fun e => [args.first_hop, e]) := by
  induction exits generalizing stats with
  | nil => rfl
  | cons e rest ih => simp [buildCircuits, ih, reqPath, List.filterMap_cons]

theorem buildCircuits_sleep_count (env : Env) (args : Args)
    (exits : List String) (stats : Statistics) :
    ((buildCircuits env args exits stats).2.filter isSleep).length =
      exits.length := by
  induction exits generalizing stats with
  | nil => rfl
  | cons e rest ih => simp [buildCircuits, ih, isSleep, List.filter_cons]

theorem buildCircuits_failed (env : Env) (args : Args) (exits : List String)
    (stats : Statistics) :
    (buildCircuits env args exits stats).1.failed_circuits =
      stats.failed_circuits +
        exits.countP (fun e => env.ctrlRejects [args.first_hop, e]) := by
  induction exits generalizing stats with
  | nil => simp [buildCircuits]
  | cons e rest ih =>
    simp only [buildCircuits, List.countP_cons]
    by_cases h : env.ctrlRejects [args.first_hop, e] <;>
      simp [h, ih] <;> omega

theorem buildCircuits_total (env : Env) (args : Args) (exits : List String)
    (stats : Statistics) :
    (buildCircuits env args exits stats).1.total_circuits =
      stats.total_circuits := by
  induction exits generalizing stats with
  | nil => rfl
  | cons e rest ih =>
    simp only [buildCircuits]
    by_cases h : env.ctrlRejects [args.first_hop, e] <;> simp [h, ih]

theorem buildCircuits_modules_run (env : Env) (args : Args)
    (exits : List String) (stats : Statistics) :
    (buildCircuits env args exits stats).1.modules_run =
      stats.modules_run := by
  induction exits generalizing stats with
  | nil => rfl
  | cons e rest ih =>
    simp only [buildCircuits]
    by_cases h : env.ctrlRejects [args.first_hop, e] <;> simp [h, ih]

/-- If any declared destination's host is unresolvable, the left-to-right
resolution of the destination list raises a resolver error — for the
first unresolvable host, which in particular is declared and
unresolvable. -/
theorem resolveList_error_of_unresolvable (env : Env)
    (ds : List (String × Nat)) (hp : String × Nat)
    (hmem : hp ∈ ds) (hr : env.resolve hp.1 = none) :
    ∃ host, env.resolve host = none ∧ (∃ q, (host, q) ∈ ds) ∧
      resolveList env ds = Except.error (SelErr.resolveFailure host) := by
  induction ds with
  | nil => cases hmem
  | cons d t ih =>
    cases hd : env.resolve d.1 with
    | none =>
      refine ⟨d.1, hd, ⟨d.2, ?_⟩, ?_⟩
      · simpa using List.mem_cons_self d t
      · simp [resolveList, hd]
    | some a =>
      rcases List.mem_cons.mp hmem with h1 | h2
      · subst h1
        rw [hd] at hr
        cases hr
      · obtain ⟨host, hhost, ⟨q, hq⟩, herr⟩ := ih h2
        refine ⟨host, hhost, ⟨q, List.mem_cons_of_mem d hq⟩, ?_⟩
        simp [resolveList, hd, herr]

/-! ### Concrete fixtures -/

/-- Fresh statistics, as created at the top of `main`. -/
def stats0 : Statistics := ⟨0, 0, 0⟩

/-- Arguments with no override and no country filter. -/
def argsA : Args := ⟨none, none, "FH", 0⟩

/-- A world whose consensus exists but whose catalog is empty, so every
module's selection qualifies zero exits; every module name imports. -/
def envA : Env :=
  { consensusExists := true
    catalog := []
    resolve := fun _ => some 1
    rand := fun _ => 0
    moduleImport := fun _ => some ⟨none⟩
    ctrlRejects := fun _ => false }

/-- A relay accepting only ports 80 and 443. -/
def relay1 : RelayRecord :=
  ⟨"f1", 1, [⟨true, 0, 1000, 80, 80⟩, ⟨true, 0, 1000, 443, 443⟩], "us"⟩

/-- A relay whose policy rejects everything. -/
def relay2 : RelayRecord := ⟨"f2", 2, [⟨false, 0, 1000, 0, 70000⟩], "us"⟩

/-- A relay whose policy accepts everything. -/
def relay3 : RelayRecord := ⟨"f3", 3, [⟨true, 0, 1000, 0, 70000⟩], "us"⟩

/-- A module declaring one destination, example.com port 443. -/
def moduleB : ProbeModule := ⟨some [("example.com", 443)]⟩

/-- The three-relay scenario world of the spec: destination resolves to
address 5, relays 1 and 3 accept it, relay 2 rejects it. -/
def envB : Env :=
  { consensusExists := true
    catalog := [relay1, relay2, relay3]
    resolve := fun _ => some 5
    rand := fun _ => 0
    moduleImport := fun _ => some moduleB
    ctrlRejects := fun _ => false }

/-- A module declaring one destination, host h port 80. -/
def moduleC : ProbeModule := ⟨some [("h", 80)]⟩

/-- Arguments carrying a single-fingerprint override. -/
def argsC : Args := ⟨some "EXOTIC", none, "FH", 0⟩

/-- A world whose only relay rejects every destination. -/
def envC : Env :=
  { consensusExists := true
    catalog := [relay2]
    resolve := fun _ => some 7
    rand := fun _ => 0
    moduleImport := fun _ => some moduleC
    ctrlRejects := fun _ => false }

/-- The world of `envC` with the consensus file missing. -/
def envG1 : Env := { envC with consensusExists := false }

/-- A module declaring two destinations: one resolvable, one not. -/
def moduleE : ProbeModule := ⟨some [("ok", 1), ("h", 80)]⟩

/-- A world where host "ok" resolves to address 3 and every other host
is unresolvable. -/
def envE : Env :=
  { consensusExists := true
    catalog := [relay2]
    resolve := fun n => if n == "ok" then some 3 else none
    rand := fun _ => 0
    moduleImport := fun _ => some moduleE
    ctrlRejects := fun _ => false }

/-- A world with one accept-all relay where only module "bad" fails to
import. -/
def envD : Env :=
  { consensusExists := true
    catalog := [⟨"R1", 9, [⟨true, 0, 1000, 0, 70000⟩], "de"⟩]
    resolve := fun _ => some 1
    rand := fun _ => 0
    moduleImport := fun n => if n == "bad" then none else some ⟨none⟩
    ctrlRejects := fun _ => false }

/-! ### Claims -/

/-- C1, counterexample.  The claim says a configuration error in one
module's run (for example zero qualifying exits) aborts only that module
and the driver proceeds to the next requested module.  In `envA` module
"modA" qualifies zero exits, so `run_module` raises `ExitSelectionError`;
`main`'s loop has no handler around `run_module`, so the exception
propagates and module "modB" — although perfectly importable — is never
run: the driver's trace contains only "modA" and the batch ends with the
exception. -/
theorem C1_counterexample :
    runModules envA argsA ["modA", "modB"] stats0 =
      ⟨⟨0, 0, 0⟩, [("modA", [])], Outcome.raised (RunError.exitSelection 0)⟩ ∧
    envA.moduleImport "modB" = some ⟨none⟩ := by
  exact ⟨rfl, rfl⟩

/-- C1, amended.  A module-import failure is isolated (see C10), but a
configuration error arising inside a module's run — such as exit
selection yielding zero qualifying exits — propagates out of the driver
loop uncaught: the driver stops at that module and the remaining
requested modules are not run. -/
theorem C1_amended_config_error_aborts_batch (env : Env) (args : Args)
    (mn : String) (rest : List String) (stats : Statistics) (e : RunError)
    (h : (run_module env args mn stats).outcome = Outcome.raised e) :
    runModules env args (mn :: rest) stats =
      ⟨(run_module env args mn stats).stats,
       [(mn, (run_module env args mn stats).trace)],
       Outcome.raised e⟩ := by
  simp [runModules, h]

/-- C1, witness for the amended theorem: in `envA` module "modA" raises
the zero-exit selection error and the batch ["modA", "modB"] stops after
"modA". -/
theorem C1_amended_witness :
    runModules envA argsA ["modA", "modB"] stats0 =
      ⟨(run_module envA argsA "modA" stats0).stats,
       [("modA", (run_module envA argsA "modA" stats0).trace)],
       Outcome.raised (RunError.exitSelection 0)⟩ :=
  C1_amended_config_error_aborts_batch envA argsA "modA" ["modB"] stats0
    (RunError.exitSelection 0) rfl

/-- C2.  When no single-fingerprint override is supplied and selection
returns a list, that list is a permutation of the qualifying set: the
fingerprints of exactly those catalog relays whose policy accepts every
resolved destination, intersected with the country filter — nothing
omitted, nothing duplicated, the order being only the shuffle's. -/
theorem C2_selection_is_permutation (env : Env) (args : Args)
    (m : ProbeModule) (hosts : List (Nat × Nat)) (l : List String)
    (hx : args.exit = none)
    (hh : resolveHosts env m = Except.ok hosts)
    (hs : select_exits env args m = Except.ok l) :
    List.Perm l
      ((env.catalog.filter (qualifies hosts args.country)).map
        (·.fingerprint)) := by
  cases hce : env.consensusExists with
  | false => simp [select_exits, hce] at hs
  | true =>
    simp only [select_exits, hce, hh, hx, Bool.not_true, Bool.false_eq_true,
      if_false, Except.ok.injEq] at hs
    subst hs
    exact shuffle_perm env.rand _

/-- C2, witness: in the three-relay scenario world the selector returns
["f3", "f1"], a permutation of the qualifying fingerprints ["f1", "f3"]. -/
theorem C2_witness :
    List.Perm (["f3", "f1"] : List String)
      ((envB.catalog.filter (qualifies [(5, 443)] argsA.country)).map
        (·.fingerprint)) :=
  C2_selection_is_permutation envB argsA moduleB [(5, 443)] ["f3", "f1"]
    rfl rfl rfl

/-- C3.  Over a non-empty selected-exit list the build loop issues
exactly one circuit-creation request per selected exit, in the list's
order, each naming the 2-hop path of the fixed first hop followed by
that exit's fingerprint. -/
theorem C3_build_loop_one_request_per_exit (env : Env) (args : Args)
    (exits : List String) (stats : Statistics) (h : exits ≠ []) :
    (buildCircuits env args exits stats).2.filterMap reqPath =
      exits.map (fun e => [args.first_hop, e]) ∧
    ((buildCircuits env args exits stats).2.filterMap reqPath).length =
      exits.length := by
  refine ⟨buildCircuits_requests env args exits stats, ?_⟩
  rw [buildCircuits_requests, List.length_map]

/-- C3, witness: five selected exits yield exactly five requests, in
order, each a 2-hop path. -/
theorem C3_witness :
    (buildCircuits envA argsA ["e1", "e2", "e3", "e4", "e5"] stats0).2.filterMap
        reqPath =
      (["e1", "e2", "e3", "e4", "e5"] : List String).map
        (fun e => [argsA.first_hop, e]) ∧
    ((buildCircuits envA argsA ["e1", "e2", "e3", "e4", "e5"] stats0).2.filterMap
        reqPath).length =
      (["e1", "e2", "e3", "e4", "e5"] : List String).length :=
  C3_build_loop_one_request_per_exit envA argsA ["e1", "e2", "e3", "e4", "e5"]
    stats0 (List.cons_ne_nil _ _)

/-- C4.  Each synchronously rejected creation request increments
`failed_circuits` by exactly one (the final counter adds exactly the
number of rejected exits), and rejections never prevent the requests for
the remaining exits: every exit's request is still issued. -/
theorem C4_sync_failure_counted_and_continues (env : Env) (args : Args)
    (exits : List String) (stats : Statistics) :
    (buildCircuits env args exits stats).1.failed_circuits =
      stats.failed_circuits +
        exits.countP (fun e => env.ctrlRejects [args.first_hop, e]) ∧
    (buildCircuits env args exits stats).2.filterMap reqPath =
      exits.map (fun e => [args.first_hop, e]) :=
  ⟨buildCircuits_failed env args exits stats,
   buildCircuits_requests env args exits stats⟩

/-- C5.  `run_module` adds the number of selected exits to
`total_circuits` up front: whatever the controller later rejects (the
rejection predicate is universally quantified inside `env`) and whether
the run completes or raises the zero-exit error, the counter grows by
exactly the selected count — attempts, not successes. -/
theorem C5_total_circuits_counts_attempts (env : Env) (args : Args)
    (module_name : String) (stats : Statistics) (m : ProbeModule)
    (exits : List String)
    (him : env.moduleImport module_name = some m)
    (hs : select_exits env args m = Except.ok exits) :
    (run_module env args module_name stats).stats.total_circuits =
      stats.total_circuits + exits.length := by
  simp only [run_module, him, hs]
  by_cases hlen : exits.length < 1
  · simp [hlen]
  · simp [hlen, buildCircuits_total]

/-- C5, witness: in the three-relay world two exits are selected and
`total_circuits` grows by exactly two. -/
theorem C5_witness :
    (run_module envB argsA "mod" stats0).stats.total_circuits =
      stats0.total_circuits + (["f3", "f1"] : List String).length :=
  C5_total_circuits_counts_attempts envB argsA "mod" stats0 moduleB
    ["f3", "f1"] rfl rfl

/-- C6.  When a single explicit exit fingerprint is supplied, selection
returns exactly the one-element list containing it, for every catalog
whatsoever — no policy matching is consulted, so it holds even when
every relay's policy rejects every destination. -/
theorem C6_single_fingerprint_override (env : Env) (args : Args)
    (m : ProbeModule) (fp : String) (hosts : List (Nat × Nat))
    (hx : args.exit = some fp) (hc : env.consensusExists = true)
    (hh : resolveHosts env m = Except.ok hosts) :
    select_exits env args m = Except.ok [fp] := by
  simp [select_exits, hc, hh, hx, shuffle_single]

/-- C6, witness: the override fingerprint "EXOTIC" is returned although
the only relay in the catalog rejects the module's destination. -/
theorem C6_witness :
    select_exits envC argsC moduleC = Except.ok ["EXOTIC"] :=
  C6_single_fingerprint_override envC argsC moduleC "EXOTIC" [(7, 80)]
    rfl rfl rfl

/-- C7.  When selection yields zero candidate exits, `run_module` raises
the exit-selection error carrying the zero count, and the build loop
issues no circuit request at all — the run does not complete silently. -/
theorem C7_zero_exits_raises (env : Env) (args : Args)
    (module_name : String) (stats : Statistics) (m : ProbeModule)
    (him : env.moduleImport module_name = some m)
    (hs : select_exits env args m = Except.ok []) :
    (run_module env args module_name stats).outcome =
      Outcome.raised (RunError.exitSelection 0) ∧
    (run_module env args module_name stats).trace = [] := by
  simp [run_module, him, hs]

/-- C7, witness: the empty catalog of `envA` selects zero exits and the
module run raises the zero-count selection error with an empty trace. -/
theorem C7_witness :
    (run_module envA argsA "modX" stats0).outcome =
      Outcome.raised (RunError.exitSelection 0) ∧
    (run_module envA argsA "modX" stats0).trace = [] :=
  C7_zero_exits_raises envA argsA "modX" stats0 ⟨none⟩ rfl rfl

/-- C8.  The build loop's trace is exactly one creation request followed
by one sleep of the configured delay per selected exit — so every
request, acknowledged or rejected, is followed by a sleep, and a scan
over n exits incurs exactly n sleeps including one after the final
request. -/
theorem C8_sleep_after_each_request (env : Env) (args : Args)
    (exits : List String) (stats : Statistics) :
    (buildCircuits env args exits stats).2 =
      exits.flatMap (fun e =>
        [Event.newCircuit [args.first_hop, e],
         Event.sleep args.build_delay]) ∧
    ((buildCircuits env args exits stats).2.filter isSleep).length =
      exits.length :=
  ⟨buildCircuits_trace env args exits stats,
   buildCircuits_sleep_count env args exits stats⟩

/-- C9.  The single-fingerprint override bypasses only policy matching:
with the override supplied, a missing consensus still terminates the
process with status 1, and every declared destination host is still
resolved — if any declared host, at any position of the list, is
unresolvable, selection raises a resolver error (naming an unresolvable
declared host) instead of returning the override fingerprint. -/
theorem C9_override_keeps_checks (env : Env) (args : Args)
    (m : ProbeModule) (fp : String) (ds : List (String × Nat))
    (hp : String × Nat) (hx : args.exit = some fp) :
    (env.consensusExists = false →
      select_exits env args m = Except.error (SelErr.processExit 1)) ∧
    (env.consensusExists = true →
      m.destinations = some ds →
      hp ∈ ds →
      env.resolve hp.1 = none →
      ∃ host, env.resolve host = none ∧ (∃ q, (host, q) ∈ ds) ∧
        select_exits env args m =
          Except.error (SelErr.resolveFailure host)) := by
  constructor
  · intro hc
    simp [select_exits, hc]
  · intro hc hd hmem hr
    obtain ⟨host, hhost, hdecl, herr⟩ :=
      resolveList_error_of_unresolvable env ds hp hmem hr
    refine ⟨host, hhost, hdecl, ?_⟩
    simp [select_exits, hc, resolveHosts, hd, herr]

/-- C9, witness: with the "EXOTIC" override, a missing consensus yields
process exit 1; and in a world where the module's first host "ok"
resolves but its second host "h" does not, selection raises the
resolver error for an unresolvable declared host. -/
theorem C9_witness :
    select_exits envG1 argsC moduleC = Except.error (SelErr.processExit 1) ∧
    ∃ host, envE.resolve host = none ∧
      (∃ q, (host, q) ∈ ([("ok", 1), ("h", 80)] : List (String × Nat))) ∧
      select_exits envE argsC moduleE =
        Except.error (SelErr.resolveFailure host) :=
  ⟨(C9_override_keeps_checks envG1 argsC moduleC "EXOTIC" [("h", 80)]
      ("h", 80) rfl).1 rfl,
   (C9_override_keeps_checks envE argsC moduleE "EXOTIC"
      [("ok", 1), ("h", 80)] ("h", 80) rfl).2 rfl rfl
      (List.mem_cons_of_mem _ (List.mem_cons_self _ _)) rfl⟩

/-- C10.  A module name that fails to import makes `run_module` return
normally with the statistics object untouched and an empty trace, and
the driver loop then behaves on the remaining modules exactly as if the
failing module had not been requested (its only trace entry being
empty). -/
theorem C10_import_failure_isolated (env : Env) (args : Args)
    (mn : String) (stats : Statistics)
    (him : env.moduleImport mn = none) :
    run_module env args mn stats = ⟨stats, [], Outcome.ok⟩ ∧
    ∀ rest, runModules env args (mn :: rest) stats =
      ⟨(runModules env args rest stats).stats,
       (mn, []) :: (runModules env args rest stats).traces,
       (runModules env args rest stats).outcome⟩ := by
  have h1 : run_module env args mn stats = ⟨stats, [], Outcome.ok⟩ := by
    simp [run_module, him]
  refine ⟨h1, fun rest => ?_⟩
  simp [runModules, h1]

/-- C10, witness: module "bad" fails to import in `envD`; its run leaves
the statistics untouched and the batch ["bad", "good"] still runs
"good". -/
theorem C10_witness :
    run_module envD argsA "bad" stats0 = ⟨stats0, [], Outcome.ok⟩ ∧
    runModules envD argsA ["bad", "good"] stats0 =
      ⟨(runModules envD argsA ["good"] stats0).stats,
       ("bad", []) :: (runModules envD argsA ["good"] stats0).traces,
       (runModules envD argsA ["good"] stats0).outcome⟩ :=
  ⟨(C10_import_failure_isolated envD argsA "bad" stats0 rfl).1,
   (C10_import_failure_isolated envD argsA "bad" stats0 rfl).2 ["good"]⟩

end Exitmap
